import Mathlib

/-!
Shallow embedding of the MCP client manager (mcp_client.py) and of the
tool-calling agent loop (agent.py), together with theorems settling the
specification claims about them.

String operations are implemented over the underlying character lists with
structural recursion so that every definition evaluates inside the kernel.
-/

/-- Lowercase a string character by character, the embedding of the Python
str.lower() calls used throughout agent.py. -/
def strLower (s : String) : String := ⟨s.data.map Char.toLower⟩

/-- Uppercase a string character by character, the embedding of
source.upper() in Agent.process_message. -/
def strUpper (s : String) : String := ⟨s.data.map Char.toUpper⟩

/-- Contiguous-sublist test on character lists, the embedding of the Python
substring operator needle in hay. -/
def infixOfL (needle : List Char) : List Char → Bool
  | [] => needle.isEmpty
  | c :: cs => needle.isPrefixOf (c :: cs) || infixOfL needle cs

/-- Substring containment on strings, the Python expression needle in hay. -/
def strIn (needle hay : String) : Bool := infixOfL needle.data hay.data

/-- Helper for pyWords: accumulates the current run of non-whitespace
characters (in reverse) while walking the character list. -/
def wordsAux : List Char → List Char → List String
  | [], acc => if acc.isEmpty then [] else [⟨acc.reverse⟩]
  | c :: cs, acc =>
    if c.isWhitespace then
      if acc.isEmpty then wordsAux cs [] else (⟨acc.reverse⟩ : String) :: wordsAux cs []
    else wordsAux cs (c :: acc)

/-- Whitespace splitting that drops empty pieces, the embedding of the
argument-less Python str.split() in Agent._get_relevant_history. -/
def pyWords (s : String) : List String := wordsAux s.data []

/-- JSON-like values, used to model tool input schemas as they travel from a
server listing to the model-facing function declaration. -/
inductive JVal where
  | str : String → JVal
  | num : Int → JVal
  | bool : Bool → JVal
  | null : JVal
  | arr : List JVal → JVal
  | obj : List (String × JVal) → JVal

/-- Key lookup on a JSON value, the embedding of Python dict.get(key): it
yields the value stored under the key of an object and nothing otherwise. -/
def jGet : JVal → String → Option JVal
  | .obj kvs, k => kvs.lookup k
  | _, _ => none

/-- Whether a schema carries top-level "type": "object", the embedding of the
test parameters.get("type") != "object" in Agent._get_tools (negated). -/
def isObjectTyped (p : JVal) : Bool :=
  match jGet p "type" with
  | some (.str s) => s == "object"
  | _ => false

/-- One entry of MCPClientManager.tools: the dict built in refresh_tools with
keys name, description, input_schema and server. -/
structure ToolDescriptor where
  name : String
  description : String
  input_schema : JVal
  server : String

/-- One tool as reported by a server in session.list_tools(), mirroring
mcp.types.Tool with the fields refresh_tools reads. -/
structure MCPTool where
  name : String
  description : String
  inputSchema : JVal

/-- Embedding of MCPClientManager.refresh_tools: each session is a named
source whose list_tools call either yields tools or raises; a raising session
is skipped (logged in the source) and every listed tool is appended to the
rebuilt registry tagged with its owning server name. -/
def refresh_tools (sessions : List (String × Except String (List MCPTool))) :
    List ToolDescriptor :=
  sessions.foldl (fun acc ns =>
    match ns.2 with
    | .ok ts => acc ++ ts.map (fun t => ⟨t.name, t.description, t.inputSchema, ns.1⟩)
    | .error _ => acc) []

/-- One content segment of a tool call result, mirroring the three content
types MCPClientManager.call_tool distinguishes. -/
inductive MCPContent where
  | text (text : String)
  | image (mimeType : String)
  | resource (uri : String)

/-- Result of a session call_tool invocation, mirroring
mcp.types.CallToolResult with the fields the manager reads. -/
structure CallToolResult where
  isError : Bool
  content : List MCPContent

/-- Rendering of one content segment inside call_tool: text verbatim, images
and resources as bracketed placeholders. -/
def renderContent : MCPContent → String
  | .text t => t
  | .image m => "[Image: " ++ m ++ "]"
  | .resource u => "[Resource: " ++ u ++ "]"

/-- Concrete stand-in for the Python rendering of the content list inside the
error branch of call_tool (the f-string Error: followed by result.content). -/
def reprContentList (cs : List MCPContent) : String :=
  "[" ++ String.intercalate ", " (cs.map renderContent) ++ "]"

/-- Behaviour of one connected session, invoked as server name, tool name and
arguments; an error value models session.call_tool raising. Argument maps are
modelled as association lists from argument name to value. -/
def SessionCall : Type :=
  String → String → List (String × String) → Except String CallToolResult

/-- Embedding of MCPClientManager.call_tool. The first component is the
returned string or the raised error message; the second component is the
trace of (server, tool) session invocations actually performed, used to state
that an unknown name never reaches any session. -/
def call_tool (tools : List ToolDescriptor) (sessionCall : SessionCall)
    (tool_name : String) (arguments : List (String × String)) :
    Except String String × List (String × String) :=
  match tools.find? (fun t => t.name == tool_name) with
  | none => (.error ("Tool " ++ tool_name ++ " not found"), [])
  | some target_tool =>
    match sessionCall target_tool.server tool_name arguments with
    | .error e => (.error e, [(target_tool.server, tool_name)])
    | .ok result =>
      let output :=
        if !result.isError then result.content.map renderContent
        else ["Error: " ++ reprContentList result.content]
      (.ok (String.intercalate "\n" output), [(target_tool.server, tool_name)])

/-- Outcome of one private per-server connection helper (_connect_ddg or
_connect_context7): either a session was established, or every candidate
configuration failed and the final message was recorded. -/
inductive AttemptOutcome where
  | success
  | failure (msg : String)
deriving DecidableEq

/-- Contents of connection_errors after both helpers settle: each failed
helper records its final message under its server name. -/
def connectErrors (ddg c7 : AttemptOutcome) : List (String × String) :=
  (match ddg with | .failure e => [("duckduckgo", e)] | .success => []) ++
  (match c7 with | .failure e => [("context7", e)] | .success => [])

/-- Manager observables produced by a successful connect: the active session
names, the connected flag, and the per-server error map. -/
structure ConnState where
  sessions : List String
  is_connected : Bool
  connection_errors : List (String × String)

/-- Embedding of MCPClientManager.connect on a fresh manager, as a function
of the two per-server attempt outcomes: if neither produced a session the
aggregated exception is raised, otherwise the manager is marked connected
with the sessions that succeeded. -/
def connect (ddg c7 : AttemptOutcome) : Except String ConnState :=
  let ddg_connected : Bool := match ddg with | .success => true | .failure _ => false
  let c7_connected : Bool := match c7 with | .success => true | .failure _ => false
  let errs := connectErrors ddg c7
  if !ddg_connected && !c7_connected then
    .error ("Failed to connect to any MCP server:\n" ++
      String.intercalate "\n" (errs.map (fun kv => kv.1 ++ ": " ++ kv.2)))
  else
    .ok { sessions :=
            (if ddg_connected then ["duckduckgo"] else []) ++
            (if c7_connected then ["context7"] else []),
          is_connected := true,
          connection_errors := errs }

/-- Mutable fields of MCPClientManager touched by cleanup and by the entry of
connect. -/
structure ManagerState where
  sessions : List String
  tools : List ToolDescriptor
  is_connected : Bool
  connection_errors : List (String × String)

/-- Embedding of MCPClientManager.cleanup: after the exit stack is closed the
session map is cleared, the registry emptied and the connected flag reset. -/
def cleanup (s : ManagerState) : ManagerState :=
  { s with sessions := [], tools := [], is_connected := false }

/-- Entry of MCPClientManager.connect: none models the early return taken
when the manager is already connected; otherwise the error accumulator is
cleared before any attempt starts. -/
def connectBegin (s : ManagerState) : Option ManagerState :=
  if s.is_connected then none
  else some { s with connection_errors := [] }

/-- One entry of the list built by MCPClientManager.get_tools_for_gemini. -/
structure GeminiToolDecl where
  name : String
  description : String
  parameters : JVal

/-- Embedding of MCPClientManager.get_tools_for_gemini: every registry entry
is exported with its name, description and raw input schema. -/
def get_tools_for_gemini (tools : List ToolDescriptor) : List GeminiToolDecl :=
  tools.map (fun tool => ⟨tool.name, tool.description, tool.input_schema⟩)

/-- Schema normalization inlined in Agent._get_tools: a schema whose
top-level type is not object is wrapped as an object with the original schema
under the single property arg; object-typed schemas pass unchanged. -/
def normalizeParameters (parameters : JVal) : JVal :=
  if isObjectTyped parameters then parameters
  else JVal.obj [("type", JVal.str "object"), ("properties", JVal.obj [("arg", parameters)])]

/-- One google-genai function declaration as built in Agent._get_tools. -/
structure FunctionDeclaration where
  name : String
  description : String
  parameters : JVal

/-- Embedding of Agent._get_tools: each exported tool dict becomes a function
declaration with normalized parameters; an empty list yields no tool
configuration at all (the Python None). -/
def agentGetTools (tools : List ToolDescriptor) : Option (List FunctionDeclaration) :=
  let function_declarations :=
    (get_tools_for_gemini tools).map (fun tool =>
      ({ name := tool.name, description := tool.description,
         parameters := normalizeParameters tool.parameters } : FunctionDeclaration))
  if function_declarations.isEmpty then none else some function_declarations

/-- One Interaction Memory entry, mirroring the SearchResult class of
agent.py with its metadata dict split into the two keys the code stores; the
wall-clock timestamp carries no information the claims touch and is left
out of the embedding. -/
structure SearchResult where
  source : String
  query : String
  content : String
  metadataTool : String
  metadataArgs : List (String × String)
deriving DecidableEq

/-- Query tokens considered by Agent._get_relevant_history: whitespace-split
words of the lowercased query that are longer than three characters. -/
def queryTokens (query : String) : List String :=
  (pyWords (strLower query)).filter (fun word => decide (word.length > 3))

/-- Match predicate of Agent._get_relevant_history: some query token occurs
as a substring of the lowercased stored query or stored content. -/
def resultMatches (query : String) (result : SearchResult) : Bool :=
  (queryTokens query).any (fun word =>
    strIn word (strLower result.query) || strIn word (strLower result.content))

/-- Collection loop of Agent._get_relevant_history: walk the candidates in
order, keep each match, and stop right after the kept count reaches
max_results (the Python break fires after the append). -/
def collectRelevant (query : String) (max_results : Nat) :
    List SearchResult → Nat → List SearchResult
  | [], _ => []
  | result :: rest, count =>
    if resultMatches query result then
      if count + 1 ≥ max_results then [result]
      else result :: collectRelevant query max_results rest (count + 1)
    else collectRelevant query max_results rest count

/-- Most recent ten history entries, the Python slice of the last ten. -/
def lastTen (history : List SearchResult) : List SearchResult :=
  history.drop (history.length - 10)

/-- Entries selected by Agent._get_relevant_history: the collection loop run
over the reversed ten-entry window, with nothing selected from an empty
history. -/
def relevantResults (history : List SearchResult) (query : String)
    (max_results : Nat) : List SearchResult :=
  if history.isEmpty then []
  else collectRelevant query max_results (lastTen history).reverse 0

/-- Rendering of the i-th selected entry inside Agent._get_relevant_history,
with the content truncated to its first two hundred characters. -/
def formatEntry (i : Nat) (result : SearchResult) : String :=
  "\n[" ++ toString i ++ "] Source: " ++ result.source ++ "\nQuery: " ++
    result.query ++ "\n" ++ result.content.take 200 ++ "...\n"

/-- Embedding of Agent._get_relevant_history: empty history or an empty
selection yields the empty string, otherwise a header followed by the
numbered entries. -/
def get_relevant_history (history : List SearchResult) (query : String)
    (max_results : Nat) : String :=
  if history.isEmpty then ""
  else
    let relevant := relevantResults history query max_results
    if relevant.isEmpty then ""
    else
      (relevant.enum).foldl
        (fun acc p => acc ++ formatEntry (p.1 + 1) p.2)
        "\n\n=== Previous Search Results ===\n"

/-- One function call requested by the model, mirroring the name and args
fields read in Agent.process_message. -/
structure FunctionCall where
  name : String
  args : List (String × String)
deriving DecidableEq

/-- One part of a model response candidate: either a function call request or
plain content with no function_call attribute. -/
inductive ResponsePart where
  | functionCall (fc : FunctionCall)
  | textPart (text : String)
deriving DecidableEq

/-- One model response as Agent.process_message reads it: whether any
candidate exists, the parts of the first candidate, and the text attribute
(none models a response whose text attribute is unusable). -/
structure ModelResponse where
  hasCandidates : Bool
  parts : List ResponsePart
  text : Option String
deriving DecidableEq

/-- Function calls extracted from a response, in part order. -/
def functionCallsOf (response : ModelResponse) : List FunctionCall :=
  response.parts.filterMap (fun part =>
    match part with
    | .functionCall fc => some fc
    | .textPart _ => none)

/-- Display classification of a call in Agent.process_message: duckduckgo
when the lowercased tool name contains duckduckgo, context7 otherwise. -/
def classifySource (tool_name : String) : String :=
  if strIn "duckduckgo" (strLower tool_name) then "duckduckgo" else "context7"

/-- Concrete stand-in for the Python rendering of an argument dict, used when
neither a query nor a text argument is present. -/
def reprArgs (args : List (String × String)) : String :=
  "\x7b" ++
    String.intercalate ", "
      (args.map (fun kv => "\x27" ++ kv.1 ++ "\x27: \x27" ++ kv.2 ++ "\x27")) ++
    "\x7d"

/-- Query recorded for a SearchResult: the query argument, else the text
argument, else the rendered argument dict. -/
def argsQuery (args : List (String × String)) : String :=
  match args.lookup "query" with
  | some v => v
  | none =>
    match args.lookup "text" with
    | some v => v
    | none => reprArgs args

/-- Handling of one requested call inside the turn loop: on success the
formatted result is tagged with the uppercased display source and a pending
SearchResult is produced; on failure the error-tagged string replaces the
result and no SearchResult is recorded. -/
def execOne (tools : List ToolDescriptor) (sessionCall : SessionCall)
    (fc : FunctionCall) : (String × String) × Option SearchResult :=
  match (call_tool tools sessionCall fc.name fc.args).1 with
  | .ok tool_result =>
    let source := classifySource fc.name
    ((fc.name, "[Source: " ++ strUpper source ++ "]\n" ++ tool_result),
     some ⟨source, argsQuery fc.args, tool_result, fc.name, fc.args⟩)
  | .error e =>
    ((fc.name, "Error executing tool " ++ fc.name ++ ": " ++ e), none)

/-- Handling of a whole batch of requested calls: the function responses sent
back as one message, each paired with the requested name, and the pending
SearchResult entries collected this step, both in request order. -/
def execCalls (tools : List ToolDescriptor) (sessionCall : SessionCall)
    (fcs : List FunctionCall) :
    List (String × String) × List SearchResult :=
  (fcs.map (fun fc => (execOne tools sessionCall fc).1),
   fcs.filterMap (fun fc => (execOne tools sessionCall fc).2))

/-- First-occurrence deduplication, a deterministic stand-in for the Python
set of contributing sources rendered in the attribution footer. -/
def dedupSources (sources : List String) : List String :=
  sources.foldl (fun acc s => if acc.contains s then acc else acc ++ [s]) []

/-- Attribution footer appended when a turn collected results. -/
def sourceNote (results : List SearchResult) : String :=
  "\n\n---\n*Sources: " ++
    String.intercalate ", " (dedupSources (results.map (fun r => r.source))) ++ "*"

/-- Observable outcome of the turn loop: the returned text, the SearchResult
entries committed to the permanent history, the batches of function
responses sent back to the model (one list entry per round trip), and
whether the turn ceiling forced termination. -/
structure LoopOut where
  text : String
  committed : List SearchResult
  sent : List (List (String × String))
  exhausted : Bool
deriving DecidableEq

/-- Exit of Agent.process_message after the while loop driven past the turn
ceiling: pending results are committed with the best-available text plus
footer, and without pending results the fixed error text is returned. -/
def exhaustedOutput (response : ModelResponse) (pending : List SearchResult) :
    LoopOut :=
  if pending.isEmpty then
    ⟨"Error: Maximum tool execution turns reached.", [], [], true⟩
  else
    ⟨(response.text.getD "Maximum tool execution turns reached.") ++
       sourceNote pending, pending, [], true⟩

/-- Embedding of the while loop of Agent.process_message. The fuel argument
is the number of remaining allowed turns (max_turns minus the current turn
counter); responses k is the model reply to the k-th batch of function
responses; pending carries search_results_this_query. -/
def agentLoop (tools : List ToolDescriptor) (sessionCall : SessionCall)
    (responses : Nat → ModelResponse) :
    Nat → Nat → ModelResponse → List SearchResult → LoopOut
  | 0, _, response, pending => exhaustedOutput response pending
  | fuel + 1, k, response, pending =>
    if response.hasCandidates = false then
      ⟨"Error: No response from model.", [], [], false⟩
    else
      let function_calls := functionCallsOf response
      if function_calls.isEmpty then
        if pending.isEmpty then ⟨response.text.getD "", [], [], false⟩
        else ⟨response.text.getD "" ++ sourceNote pending, pending, [], false⟩
      else
        let step := execCalls tools sessionCall function_calls
        let rest :=
          agentLoop tools sessionCall responses fuel (k + 1) (responses k)
            (pending ++ step.2)
        ⟨rest.text, rest.committed, step.1 :: rest.sent, rest.exhausted⟩

/-- Turn ceiling hard-coded in Agent.process_message. -/
def max_turns : Nat := 15

/-- Embedding of Agent.process_message from the first model response on: the
turn loop started with the full turn budget, a fresh pending list and the
response to the (possibly history-enriched) user message. -/
def process_message (tools : List ToolDescriptor) (sessionCall : SessionCall)
    (responses : Nat → ModelResponse) (initialResponse : ModelResponse) :
    LoopOut :=
  agentLoop tools sessionCall responses max_turns 0 initialResponse []

/-- C1: the claim states that refresh_tools detects a duplicate tool name
across two active sessions and reports it as a configuration error, mapping
every name to exactly one owning server. The code does neither: with two
sessions each listing a tool named search, the rebuilt registry silently
keeps both descriptors and produces no error of any kind, so the name search
is mapped to two owning servers at once. -/
theorem c1_refresh_tools_keeps_duplicates :
    refresh_tools
      [("duckduckgo", .ok [⟨"search", "d1", JVal.null⟩]),
       ("context7", .ok [⟨"search", "d2", JVal.null⟩])] =
      [⟨"search", "d1", JVal.null, "duckduckgo"⟩,
       ⟨"search", "d2", JVal.null, "context7"⟩] := rfl

/-- C2: connect succeeds exactly when at least one per-server attempt
produced a session; every successful connect marks the manager connected
with a nonempty session set; and the failing connect raises the message
aggregating each failed server name with its recorded error string. -/
theorem c2_connect_succeeds_iff (ddg c7 : AttemptOutcome) :
    ((∃ st, connect ddg c7 = .ok st) ↔ (ddg = .success ∨ c7 = .success)) ∧
    (∀ st, connect ddg c7 = .ok st → st.is_connected = true ∧ st.sessions ≠ []) ∧
    (∀ e, connect ddg c7 = .error e →
      ddg ≠ .success ∧ c7 ≠ .success ∧
      e = "Failed to connect to any MCP server:\n" ++
          String.intercalate "\n"
            ((connectErrors ddg c7).map (fun kv => kv.1 ++ ": " ++ kv.2)) ∧
      (∀ m, ddg = .failure m → ("duckduckgo", m) ∈ connectErrors ddg c7) ∧
      (∀ m, c7 = .failure m → ("context7", m) ∈ connectErrors ddg c7)) := by
  cases ddg <;> cases c7 <;> simp [connect, connectErrors]

/-- Witness for C2 at one concrete outcome pair: with the DuckDuckGo attempt
succeeding and the Context7 attempt failing, the resulting state is
connected with a nonempty session list. -/
theorem c2_connect_succeeds_iff_witness :
    ({ sessions := ["duckduckgo"], is_connected := true,
       connection_errors := [("context7", "x")] } : ConnState).is_connected = true ∧
    ({ sessions := ["duckduckgo"], is_connected := true,
       connection_errors := [("context7", "x")] } : ConnState).sessions ≠ [] :=
  (c2_connect_succeeds_iff .success (.failure "x")).2.1 _ rfl

/-- C7: every parameters schema exposed to the model has a keyed-object
top-level shape: the normalized schema is always an object carrying
top-level type object, object-typed schemas pass through unchanged,
non-object-typed schemas are wrapped under the single property arg, and the
declarations built by the agent are exactly the exported tools with
normalized parameters. -/
theorem c7_schema_normalization (p : JVal) (tools : List ToolDescriptor)
    (fds : List FunctionDeclaration) :
    (∃ kvs, normalizeParameters p = JVal.obj kvs) ∧
    isObjectTyped (normalizeParameters p) = true ∧
    (isObjectTyped p = true → normalizeParameters p = p) ∧
    (isObjectTyped p = false → normalizeParameters p =
      JVal.obj [("type", JVal.str "object"),
                ("properties", JVal.obj [("arg", p)])]) ∧
    (agentGetTools tools = some fds →
      fds = (get_tools_for_gemini tools).map (fun tool =>
        ⟨tool.name, tool.description, normalizeParameters tool.parameters⟩)) := by
  refine ⟨?_, ?_, ?_, ?_, ?_⟩
  · unfold normalizeParameters
    split
    · next h =>
      cases p with
      | obj kvs => exact ⟨kvs, rfl⟩
      | str s => simp [isObjectTyped, jGet] at h
      | num n => simp [isObjectTyped, jGet] at h
      | bool b => simp [isObjectTyped, jGet] at h
      | null => simp [isObjectTyped, jGet] at h
      | arr l => simp [isObjectTyped, jGet] at h
    · exact ⟨_, rfl⟩
  · unfold normalizeParameters
    split
    · next h => exact h
    · rfl
  · intro h
    simp [normalizeParameters, h]
  · intro h
    simp [normalizeParameters, h]
  · intro h
    unfold agentGetTools at h
    dsimp only at h
    split at h
    · cases h
    · injection h with h2
      exact h2.symm

/-- Witness for C7: a plain string schema is wrapped as an object with the
original schema under the single property arg. -/
theorem c7_schema_normalization_witness :
    normalizeParameters (JVal.str "string") =
      JVal.obj [("type", JVal.str "object"),
                ("properties", JVal.obj [("arg", JVal.str "string")])] :=
  (c7_schema_normalization (JVal.str "string") [] []).2.2.2.1 rfl

/-- C8: for every name absent from the registry and any argument map,
call_tool raises the tool-not-found error and its session invocation trace
is empty, so no session is ever reached. -/
theorem c8_tool_not_found (tools : List ToolDescriptor)
    (sessionCall : SessionCall) (tool_name : String)
    (arguments : List (String × String))
    (habsent : tools.find? (fun t => t.name == tool_name) = none) :
    call_tool tools sessionCall tool_name arguments =
      (.error ("Tool " ++ tool_name ++ " not found"), []) := by
  unfold call_tool
  rw [habsent]

/-- Witness for C8 on a registry that does not contain the requested name. -/
theorem c8_tool_not_found_witness :
    call_tool [⟨"a", "d", JVal.null, "s1"⟩] (fun _ _ _ => .error "boom")
      "nonexistent" [] =
      (.error ("Tool " ++ "nonexistent" ++ " not found"), []) :=
  c8_tool_not_found _ _ _ _ rfl

/-- Registry lookup returns the first descriptor carrying the requested
name, skipping any earlier descriptors with other names. -/
theorem find_tool_first (tool_name : String) (post : List ToolDescriptor)
    (t : ToolDescriptor) (hname : t.name = tool_name) :
    ∀ pre : List ToolDescriptor, (∀ u ∈ pre, (u.name == tool_name) = false) →
      (pre ++ t :: post).find? (fun u => u.name == tool_name) = some t := by
  intro pre
  induction pre with
  | nil =>
    intro _
    simp [List.find?_cons_of_pos, hname]
  | cons a as ih =>
    intro hpre
    rw [List.cons_append,
      List.find?_cons_of_neg _ (by simp [hpre a (List.mem_cons_self a as)])]
    exact ih (fun u hu => hpre u (List.mem_cons_of_mem a hu))

/-- C10: when the registry holds several descriptors with the same name,
call_tool always routes to the session of the first-listed one: the
invocation trace is exactly one call on that descriptor's owning server, so
the same-named tool of every later-listed server is unreachable. -/
theorem c10_first_listed_owner_routes (pre post : List ToolDescriptor)
    (t : ToolDescriptor) (sessionCall : SessionCall)
    (arguments : List (String × String))
    (hpre : ∀ u ∈ pre, (u.name == t.name) = false) :
    (call_tool (pre ++ t :: post) sessionCall t.name arguments).2 =
      [(t.server, t.name)] := by
  unfold call_tool
  rw [find_tool_first t.name post t rfl pre hpre]
  rcases h : sessionCall t.server t.name arguments with e | r <;> simp [h]

/-- Witness for C10: with duplicate descriptors named search owned by
duckduckgo and then context7, invocation traces one call on duckduckgo. -/
theorem c10_first_listed_owner_routes_witness :
    (call_tool
       ([⟨"other", "d0", JVal.null, "s0"⟩] ++
         (⟨"search", "d1", JVal.null, "duckduckgo"⟩ : ToolDescriptor) ::
           [⟨"search", "d2", JVal.null, "context7"⟩])
       (fun _ _ _ => .ok ⟨false, [.text "r"]⟩)
       (⟨"search", "d1", JVal.null, "duckduckgo"⟩ : ToolDescriptor).name []).2 =
      [((⟨"search", "d1", JVal.null, "duckduckgo"⟩ : ToolDescriptor).server,
        (⟨"search", "d1", JVal.null, "duckduckgo"⟩ : ToolDescriptor).name)] :=
  c10_first_listed_owner_routes _ _ _ _ _
    (by
      intro u hu
      rcases List.mem_singleton.mp hu with rfl
      rfl)

/-- C9: cleanup empties the session map and the registry and resets the
connected flag, and a connect that follows proceeds past its idempotence
guard and clears the error accumulator before attempting anything. -/
theorem c9_cleanup_resets (s : ManagerState) :
    (cleanup s).sessions = [] ∧ (cleanup s).tools = [] ∧
    (cleanup s).is_connected = false ∧
    connectBegin (cleanup s) =
      some { sessions := [], tools := [], is_connected := false,
             connection_errors := [] } :=
  ⟨rfl, rfl, rfl, rfl⟩

/-- Collection loop bound: starting below the cap, at most the remaining
budget of entries is kept. -/
theorem collectRelevant_length_le (query : String) (max_results : Nat)
    (l : List SearchResult) :
    ∀ count : Nat, count < max_results →
      (collectRelevant query max_results l count).length ≤ max_results - count := by
  induction l with
  | nil =>
    intro count _
    simp [collectRelevant]
  | cons result rest ih =>
    intro count hlt
    unfold collectRelevant
    split
    · split
      · next hge =>
        simp only [List.length_singleton]
        omega
      · next hno =>
        have h2 := ih (count + 1) (by omega)
        simp only [List.length_cons]
        omega
    · exact (ih count hlt).trans (Nat.le_refl _)

/-- The collection loop selects a sublist of its candidate list, so the
selected entries appear in the scanned order. -/
theorem collectRelevant_sublist (query : String) (max_results : Nat)
    (l : List SearchResult) :
    ∀ count : Nat, List.Sublist (collectRelevant query max_results l count) l := by
  induction l with
  | nil =>
    intro count
    simp [collectRelevant]
  | cons result rest ih =>
    intro count
    unfold collectRelevant
    split
    · split
      · exact (List.nil_sublist rest).cons₂ result
      · exact (ih (count + 1)).cons₂ result
    · exact (ih count).cons result

/-- Every entry kept by the collection loop satisfies the match predicate. -/
theorem collectRelevant_matches (query : String) (max_results : Nat)
    (l : List SearchResult) :
    ∀ count : Nat, ∀ r ∈ collectRelevant query max_results l count,
      resultMatches query r = true := by
  induction l with
  | nil =>
    intro count r h
    simp [collectRelevant] at h
  | cons result rest ih =>
    intro count r h
    unfold collectRelevant at h
    split at h
    · next hm =>
      split at h
      · rcases List.mem_singleton.mp h with rfl
        exact hm
      · rcases List.mem_cons.mp h with rfl | h2
        · exact hm
        · exact ih _ _ h2
    · exact ih _ _ h

/-- With no matching candidate the collection loop keeps nothing. -/
theorem collectRelevant_eq_nil (query : String) (max_results : Nat)
    (l : List SearchResult) :
    ∀ count : Nat, (∀ r ∈ l, resultMatches query r = false) →
      collectRelevant query max_results l count = [] := by
  induction l with
  | nil =>
    intro count _
    rfl
  | cons result rest ih =>
    intro count hall
    unfold collectRelevant
    rw [if_neg]
    · exact ih count (fun r hr => hall r (List.mem_cons_of_mem _ hr))
    · simp [hall result (List.mem_cons_self _ _)]

/-- C5: for a positive cap, the relevance lookup keeps at most max_results
entries, all drawn (in scan order) from the reversed window of the ten most
recent history entries, each satisfying the token-overlap predicate; an
empty history or a window with no match injects no context at all. -/
theorem c5_relevant_window (history : List SearchResult) (query : String)
    (max_results : Nat) (hmax : 1 ≤ max_results) :
    (relevantResults history query max_results).length ≤ max_results ∧
    List.Sublist (relevantResults history query max_results)
      (lastTen history).reverse ∧
    (∀ r ∈ relevantResults history query max_results,
      resultMatches query r = true) ∧
    (history = [] → get_relevant_history history query max_results = "") ∧
    ((∀ r ∈ lastTen history, resultMatches query r = false) →
      get_relevant_history history query max_results = "") := by
  refine ⟨?_, ?_, ?_, ?_, ?_⟩
  · unfold relevantResults
    split
    · simp
    · have h := collectRelevant_length_le query max_results
        (lastTen history).reverse 0 (by omega)
      simpa using h
  · unfold relevantResults
    split
    · exact List.nil_sublist _
    · exact collectRelevant_sublist query max_results (lastTen history).reverse 0
  · intro r hr
    unfold relevantResults at hr
    split at hr
    · simp at hr
    · exact collectRelevant_matches query max_results _ 0 r hr
  · intro h
    subst h
    rfl
  · intro hall
    unfold get_relevant_history
    split
    · rfl
    · rw [show relevantResults history query max_results = [] from ?_]
      · rfl
      · unfold relevantResults
        split
        · rfl
        · exact collectRelevant_eq_nil query max_results _ 0
            (fun r hr => hall r (List.mem_reverse.mp hr))

/-- Witness for C5 on a one-entry history matched by the query token parse:
at most three entries come back and the empty history yields nothing. -/
theorem c5_relevant_window_witness :
    (relevantResults [⟨"duckduckgo", "parse json", "json stuff", "t", []⟩]
       "how to parse json" 3).length ≤ 3 ∧
    get_relevant_history [] "how to parse json" 3 = "" :=
  ⟨(c5_relevant_window [⟨"duckduckgo", "parse json", "json stuff", "t", []⟩]
      "how to parse json" 3 (by decide)).1,
   (c5_relevant_window [] "how to parse json" 3 (by decide)).2.2.2.1 rfl⟩

/-- C4: a batch of k requested calls produces exactly k function responses,
the i-th response carrying the i-th requested name, and a call whose
invocation raises contributes the error-tagged string in its slot instead of
propagating the exception. -/
theorem c4_response_per_request (tools : List ToolDescriptor)
    (sessionCall : SessionCall) (fcs : List FunctionCall) :
    (execCalls tools sessionCall fcs).1.length = fcs.length ∧
    (∀ i : Nat, ∀ h : i < fcs.length,
      ((execCalls tools sessionCall fcs).1.get
          ⟨i, by simpa [execCalls] using h⟩).1 = (fcs.get ⟨i, h⟩).name) ∧
    (∀ i : Nat, ∀ h : i < fcs.length, ∀ e : String,
      (call_tool tools sessionCall (fcs.get ⟨i, h⟩).name
          (fcs.get ⟨i, h⟩).args).1 = .error e →
      (execCalls tools sessionCall fcs).1.get
          ⟨i, by simpa [execCalls] using h⟩ =
        ((fcs.get ⟨i, h⟩).name,
         "Error executing tool " ++ (fcs.get ⟨i, h⟩).name ++ ": " ++ e)) := by
  refine ⟨by simp [execCalls], ?_, ?_⟩
  · intro i h
    simp only [execCalls, List.get_eq_getElem, List.getElem_map]
    rcases hc : (call_tool tools sessionCall fcs[i].name fcs[i].args).1
        with e | r <;>
      simp [execOne, hc]
  · intro i h e he
    simp only [List.get_eq_getElem] at he
    simp only [execCalls, List.get_eq_getElem, List.getElem_map]
    simp [execOne, he]

/-- Witness for C4: a single requested call whose tool is absent from the
registry still receives its one response, tagged as an execution error. -/
theorem c4_response_per_request_witness :
    (execCalls [] (fun _ _ _ => .error "boom")
        [(⟨"t", []⟩ : FunctionCall)]).1.get
        ⟨0, by simp [execCalls]⟩ =
      ((([(⟨"t", []⟩ : FunctionCall)]).get ⟨0, by decide⟩).name,
       "Error executing tool " ++
         (([(⟨"t", []⟩ : FunctionCall)]).get ⟨0, by decide⟩).name ++ ": " ++
         ("Tool " ++ "t" ++ " not found")) :=
  (c4_response_per_request [] (fun _ _ _ => .error "boom")
      [(⟨"t", []⟩ : FunctionCall)]).2.2 0 (by decide)
    ("Tool " ++ "t" ++ " not found") rfl

/-- Turn loop invariant: the number of reply batches sent never exceeds the
remaining fuel, and a forced exhaustion either had nothing pending (and
returns the fixed error text with nothing committed) or commits a list
extending the entries already pending and returns the best-available text
followed by the attribution footer over exactly the committed entries. -/
theorem agentLoop_spec (tools : List ToolDescriptor) (sessionCall : SessionCall)
    (responses : Nat → ModelResponse) :
    ∀ (fuel k : Nat) (response : ModelResponse) (pending : List SearchResult),
      (agentLoop tools sessionCall responses fuel k response pending).sent.length ≤
        fuel ∧
      ((agentLoop tools sessionCall responses fuel k response pending).exhausted =
          true →
        (pending = [] ∧
         (agentLoop tools sessionCall responses fuel k response pending).committed =
           [] ∧
         (agentLoop tools sessionCall responses fuel k response pending).text =
           "Error: Maximum tool execution turns reached.") ∨
        ((agentLoop tools sessionCall responses fuel k response pending).committed ≠
           [] ∧
         (∃ extra,
           (agentLoop tools sessionCall responses fuel k response
               pending).committed = pending ++ extra) ∧
         ∃ t : Option String,
           (agentLoop tools sessionCall responses fuel k response pending).text =
             t.getD "Maximum tool execution turns reached." ++
               sourceNote
                 ((agentLoop tools sessionCall responses fuel k response
                     pending).committed))) := by
  intro fuel
  induction fuel with
  | zero =>
    intro k response pending
    have hred : agentLoop tools sessionCall responses 0 k response pending =
        exhaustedOutput response pending := rfl
    rw [hred]
    unfold exhaustedOutput
    by_cases hp : pending.isEmpty = true
    · rw [if_pos hp]
      exact ⟨by simp, fun _ => Or.inl ⟨List.isEmpty_iff.mp hp, rfl, rfl⟩⟩
    · rw [if_neg hp]
      refine ⟨by simp, fun _ => Or.inr ⟨?_, ⟨[], by simp⟩, response.text, rfl⟩⟩
      intro hnil
      have hnil2 : pending = [] := hnil
      rw [hnil2] at hp
      exact hp rfl
  | succ fuel ih =>
    intro k response pending
    unfold agentLoop
    dsimp only
    by_cases hc : response.hasCandidates = false
    · rw [if_pos hc]
      exact ⟨Nat.zero_le _, fun h => by simp at h⟩
    · rw [if_neg hc]
      by_cases hf : (functionCallsOf response).isEmpty = true
      · rw [if_pos hf]
        by_cases hp : pending.isEmpty = true
        · rw [if_pos hp]
          exact ⟨Nat.zero_le _, fun h => by simp at h⟩
        · rw [if_neg hp]
          exact ⟨Nat.zero_le _, fun h => by simp at h⟩
      · rw [if_neg hf]
        have hrec := ih (k + 1) (responses k)
          (pending ++ (execCalls tools sessionCall (functionCallsOf response)).2)
        refine ⟨?_, ?_⟩
        · simpa using Nat.succ_le_succ hrec.1
        · intro hex
          rcases hrec.2 hex with ⟨hp, hcom, htxt⟩ | ⟨hne, ⟨extra, hx⟩, t, ht⟩
          · exact Or.inl ⟨(List.append_eq_nil.mp hp).1, hcom, htxt⟩
          · refine Or.inr ⟨hne,
              ⟨(execCalls tools sessionCall (functionCallsOf response)).2 ++ extra,
               ?_⟩, t, ht⟩
            rw [hx, List.append_assoc]

/-- C3: the tool-execution loop performs at most max_turns reply round trips
with the model, and when the ceiling forces termination the call returns a
graceful text: the fixed error message with nothing committed when no result
was pending, otherwise the best-available text with the attribution footer
over the committed pending results. -/
theorem c3_turn_ceiling (tools : List ToolDescriptor) (sessionCall : SessionCall)
    (responses : Nat → ModelResponse) (initialResponse : ModelResponse) :
    (process_message tools sessionCall responses initialResponse).sent.length ≤
      max_turns ∧
    ((process_message tools sessionCall responses initialResponse).exhausted =
        true →
      ((process_message tools sessionCall responses initialResponse).committed =
         [] ∧
       (process_message tools sessionCall responses initialResponse).text =
         "Error: Maximum tool execution turns reached.") ∨
      ((process_message tools sessionCall responses initialResponse).committed ≠
         [] ∧
       ∃ t : Option String,
         (process_message tools sessionCall responses initialResponse).text =
           t.getD "Maximum tool execution turns reached." ++
             sourceNote
               ((process_message tools sessionCall responses
                   initialResponse).committed))) := by
  have h := agentLoop_spec tools sessionCall responses max_turns 0
    initialResponse []
  exact ⟨h.1, fun hex =>
    (h.2 hex).imp (fun hl => ⟨hl.2.1, hl.2.2⟩)
      (fun hr => ⟨hr.1, hr.2.2⟩)⟩

/-- Witness for C3: a model that keeps requesting a nonexistent tool forever
drives the loop into exhaustion after max_turns round trips, and the fixed
maximum-turns error text is returned. -/
theorem c3_turn_ceiling_witness :
    (process_message [] (fun _ _ _ => .error "e")
       (fun _ => ⟨true, [.functionCall ⟨"t", []⟩], none⟩)
       ⟨true, [.functionCall ⟨"t", []⟩], none⟩).text =
      "Error: Maximum tool execution turns reached." := by
  rcases (c3_turn_ceiling [] (fun _ _ _ => .error "e")
      (fun _ => ⟨true, [.functionCall ⟨"t", []⟩], none⟩)
      ⟨true, [.functionCall ⟨"t", []⟩], none⟩).2 rfl with ⟨_, ht⟩ | ⟨hne, _⟩
  · exact ht
  · exact absurd rfl hne

/-- C6 counterexample: the claim says the footer lists server names taken
from the owning-server mapping of the Registry. Here the single invoked tool
find_docs is owned by server duckduckgo according to the Registry, yet the
returned footer and the committed result both attribute it to context7,
because the code classifies by substring match on the tool name. -/
theorem c6_footer_uses_classification :
    (process_message
       [⟨"find_docs", "doc tool", JVal.obj [("type", JVal.str "object")],
         "duckduckgo"⟩]
       (fun _ _ _ => .ok ⟨false, [.text "result"]⟩)
       (fun _ => ⟨true, [.textPart "ok"], some "ok"⟩)
       ⟨true, [.functionCall ⟨"find_docs", []⟩], none⟩).text =
      "ok\n\n---\n*Sources: context7*" ∧
    ([(⟨"find_docs", "doc tool", JVal.obj [("type", JVal.str "object")],
        "duckduckgo"⟩ : ToolDescriptor)].find?
       (fun t => t.name == "find_docs")) =
      some ⟨"find_docs", "doc tool", JVal.obj [("type", JVal.str "object")],
        "duckduckgo"⟩ ∧
    (process_message
       [⟨"find_docs", "doc tool", JVal.obj [("type", JVal.str "object")],
         "duckduckgo"⟩]
       (fun _ _ _ => .ok ⟨false, [.text "result"]⟩)
       (fun _ => ⟨true, [.textPart "ok"], some "ok"⟩)
       ⟨true, [.functionCall ⟨"find_docs", []⟩], none⟩).committed.map
        (fun r => r.source) =
      ["context7"] :=
  ⟨rfl, rfl, rfl⟩

/-- C6 amended: a turn ending with collected results carries a footer over
exactly the distinct display labels of those results, where a result's label
is the display classification of the invoked tool name (duckduckgo when the
lowercased name contains duckduckgo, context7 otherwise); the owning-server
mapping of the Registry determines only where the invocation is routed. -/
theorem c6_attribution_is_display_label (tools : List ToolDescriptor)
    (sessionCall : SessionCall) (responses : Nat → ModelResponse)
    (fuel k : Nat) (response : ModelResponse) (pending : List SearchResult)
    (fcs : List FunctionCall) :
    (∀ sr ∈ (execCalls tools sessionCall fcs).2,
      ∃ fc ∈ fcs, sr.metadataTool = fc.name ∧
        sr.source = classifySource fc.name) ∧
    (response.hasCandidates = true → functionCallsOf response = [] →
      pending ≠ [] →
      agentLoop tools sessionCall responses (fuel + 1) k response pending =
        ⟨response.text.getD "" ++ sourceNote pending, pending, [], false⟩) ∧
    (∀ (tool_name : String) (args : List (String × String))
        (t : ToolDescriptor),
      tools.find? (fun u => u.name == tool_name) = some t →
      (call_tool tools sessionCall tool_name args).2.map Prod.fst =
        [t.server]) := by
  refine ⟨?_, ?_, ?_⟩
  · intro sr hsr
    rcases List.mem_filterMap.mp hsr with ⟨fc, hfc, hsome⟩
    refine ⟨fc, hfc, ?_⟩
    unfold execOne at hsome
    rcases hc : (call_tool tools sessionCall fc.name fc.args).1 with e | r <;>
      rw [hc] at hsome
    · cases hsome
    · injection hsome with h2
      subst h2
      exact ⟨rfl, rfl⟩
  · intro hcand hnone hpending
    unfold agentLoop
    dsimp only
    rw [if_neg (by simp [hcand]), hnone]
    rw [if_pos (show ([] : List FunctionCall).isEmpty = true from rfl),
      if_neg (by simpa using hpending)]
  · intro tool_name args t hfind
    unfold call_tool
    rw [hfind]
    rcases h : sessionCall t.server tool_name args with e | r <;> simp [h]

/-- Witness for C6 amended: routing a duplicate-free registry entry named
find_docs but owned by duckduckgo really reaches duckduckgo, even though its
display label would be context7. -/
theorem c6_attribution_is_display_label_witness :
    (call_tool [⟨"find_docs", "doc tool", JVal.null, "duckduckgo"⟩]
       (fun _ _ _ => .ok ⟨false, [.text "r"]⟩) "find_docs" []).2.map
        Prod.fst =
      [(⟨"find_docs", "doc tool", JVal.null, "duckduckgo"⟩ :
          ToolDescriptor).server] :=
  (c6_attribution_is_display_label
      [⟨"find_docs", "doc tool", JVal.null, "duckduckgo"⟩]
      (fun _ _ _ => .ok ⟨false, [.text "r"]⟩)
      (fun _ => ⟨true, [], none⟩) 0 0 ⟨true, [], none⟩ [] []).2.2
    "find_docs" [] ⟨"find_docs", "doc tool", JVal.null, "duckduckgo"⟩ rfl
